import Mathlib

/-!
Shallow embedding of the audio-stream-helper client core:
the WebSocket transport service (src/services/websocketService.ts),
the level meter and audio utilities (src/utils/audioUtils.ts),
and the streaming session controller (src/hooks/useAudioStreaming.ts).

Effects on the host environment (timers, toasts, track stops, playback)
are returned explicitly; state is passed explicitly.
-/

namespace AudioStream

/-! ## Transport: WebSocketService -/

/-- State of the WebSocketService instance.
`socketActive` models `this.socket !== null` (a live socket object);
`reconnectTimeout` models the pending reconnection timer together with
its delay in milliseconds (`none` when no timer is pending). -/
structure WSState where
  socketActive : Bool
  isConnected : Bool
  reconnectAttempts : Nat
  reconnectTimeout : Option Nat
  url : String
  deriving Repr, DecidableEq

/-- The constant `maxReconnectAttempts = 5` of the service. -/
def maxReconnectAttempts : Nat := 5

/-- Method `connect()`: creates a new WebSocket on `this.url` and installs the
open/message/close/error handlers.  The fields the service itself tracks
are unchanged except that a live socket object now exists. -/
def connect (s : WSState) : WSState :=
  { s with socketActive := true }

/-- Method `attemptReconnect()`: when `reconnectAttempts < maxReconnectAttempts`,
increments the counter, computes
`delay = Math.min(1000 * Math.pow(2, this.reconnectAttempts - 1), 10000)`
and schedules a timer that will call `connect()` after that delay.
Returns the new state and the delay passed to `setTimeout` (`none` when
no timer was scheduled). -/
def attemptReconnect (s : WSState) : WSState × Option Nat :=
  if s.reconnectAttempts < maxReconnectAttempts then
    let attempts := s.reconnectAttempts + 1
    let delay := min (1000 * 2 ^ (attempts - 1)) 10000
    ({ s with reconnectAttempts := attempts, reconnectTimeout := some delay },
     some delay)
  else
    (s, none)

/-- The `socket.onopen` handler: sets `isConnected = true` and resets
`reconnectAttempts = 0` (the registered `onConnectCallback` is then run
and the connect promise resolves). -/
def onOpenEvent (s : WSState) : WSState :=
  { s with isConnected := true, reconnectAttempts := 0 }

/-- The `socket.onclose` handler: sets `isConnected = false`, runs the
registered `onDisconnectCallback`, and calls `attemptReconnect()`.
Returns the new state and the delay of the timer `attemptReconnect`
scheduled, if any. -/
def onCloseEvent (s : WSState) : WSState × Option Nat :=
  attemptReconnect { s with isConnected := false }

/-- Method `disconnect()`: clears and nulls any pending reconnection timer, and
when a live socket exists while connected, closes it, nulls the reference
and sets `isConnected = false`.  The returned Bool records whether
`socket.close()` was invoked, i.e. whether a close event for this socket
is now pending (its `onclose` handler stays attached to the closed
socket object). -/
def disconnect (s : WSState) : WSState × Bool :=
  let s1 : WSState := { s with reconnectTimeout := none }
  if s1.socketActive && s1.isConnected then
    ({ s1 with socketActive := false, isConnected := false }, true)
  else
    (s1, false)

/-- One cycle of the run of consecutive unexpected closes with no
intervening successful open: the close event fires (scheduling a retry
when the budget allows), and when a retry was scheduled its timer later
fires and calls `connect()` again; the new connection never reaches
`onopen` before the next close. -/
def closeCycle (s : WSState) : WSState :=
  let r := onCloseEvent s
  match r.2 with
  | some _ => connect r.1
  | none => r.1

/-- State after `k` consecutive unexpected close/retry cycles. -/
def stateAfterCloses (s : WSState) : Nat → WSState
  | 0 => s
  | k + 1 => closeCycle (stateAfterCloses s k)

/-- The delay scheduled by the close event ending cycle `k` (counted
from 0), `none` when that close schedules no retry. -/
def delayAtClose (s : WSState) (k : Nat) : Option Nat :=
  (onCloseEvent (stateAfterCloses s k)).2

/-- The per-sample clamp `Math.max(-1, Math.min(1, audioData[i]))`. -/
def clampSample (s : ℚ) : ℚ := max (-1) (min 1 s)

/-- One converted sample of the `Int16Array`:
`Math.floor(sample * 32767)` after clamping. -/
def floatTo16 (s : ℚ) : ℤ := ⌊clampSample s * 32767⌋

/-- Little-endian byte serialization of one element of `int16Data.buffer`
(twos complement, low byte first). -/
def int16ToBytesLE (v : ℤ) : List ℕ :=
  let u := (v % 65536).toNat
  [u % 256, u / 256]

/-- The bytes of `int16Data.buffer` sent for a converted block. -/
def encodePCM16 (audioData : List ℚ) : List ℕ :=
  (audioData.map floatTo16).flatMap int16ToBytesLE

/-- Method `sendAudioData(audioData)`: when a live socket exists and the service
is connected, converts the Float32 block to 16-bit PCM and sends the
buffer; otherwise does nothing.  Returns the (unchanged) state and the
bytes put on the wire, `none` when nothing was sent. -/
def sendAudioData (s : WSState) (audioData : List ℚ) :
    WSState × Option (List ℕ) :=
  if s.socketActive && s.isConnected then
    (s, some (encodePCM16 audioData))
  else
    (s, none)

/-- Receiver view: the i-th 16-bit signed little-endian sample of a byte
payload (used to state what a sent payload carries). -/
def decodeSampleLE (payload : List ℕ) (i : ℕ) : ℤ :=
  let u := payload.getD (2 * i) 0 + 256 * payload.getD (2 * i + 1) 0
  if u < 32768 then (u : ℤ) else (u : ℤ) - 65536

/-- A connected service instance: live socket, `isConnected = true`, zero
reconnection attempts, no pending timer. -/
def wsConnectedExample : WSState :=
  { socketActive := true, isConnected := true, reconnectAttempts := 0,
    reconnectTimeout := none, url := "ws://localhost:8000/ws" }

/-- A service instance whose socket exists but is not connected. -/
def wsDisconnectedExample : WSState :=
  { socketActive := true, isConnected := false, reconnectAttempts := 0,
    reconnectTimeout := none, url := "ws://localhost:8000/ws" }

/-! ## Level meter: getAudioLevel -/

/-- Function `getAudioLevel(analyzer)` after `getByteFrequencyData` has filled
`dataArray` with the byte frequency bins: sums all bins and returns
`sum / (dataArray.length * 255)`. -/
def getAudioLevel (dataArray : List ℕ) : ℚ :=
  (dataArray.sum : ℚ) / (dataArray.length * 255)

/-! ## Session controller: useAudioStreaming -/

/-- Severity variant of a toast notification (`variant` field; absent
means the default variant). -/
inductive Severity where
  | default
  | destructive
  deriving Repr, DecidableEq

/-- Host-environment effects issued by the hook: toast notifications,
`cancelAnimationFrame`, `processor.disconnect()`, `track.stop()` per
track, scheduling playback of a decoded buffer (routed through the output
analyzer when one exists), and `console.error` logging. -/
inductive Effect where
  | toast (title : String) (variant : Severity)
  | cancelAnimationFrame
  | disconnectProcessor
  | stopTrack (id : ℕ)
  | play (buffer : List ℚ) (throughOutputAnalyzer : Bool)
  | logError (msg : String)
  deriving Repr, DecidableEq

/-- State of the `useAudioStreaming` hook: the React state
(`isStreaming`, `isConnected`, `micPermission`, `inputLevel`,
`outputLevel`) and the refs.  A `MediaStream` is modelled by the list of
ids of its tracks; node refs by whether the ref is non-null; the
animation-frame ref by whether a metering frame is scheduled. -/
structure SessionState where
  isStreaming : Bool
  isConnected : Bool
  micPermission : Option Bool
  inputLevel : ℚ
  outputLevel : ℚ
  localStream : Option (List ℕ)
  audioContext : Bool
  inputAnalyzer : Bool
  outputAnalyzer : Bool
  animationFrame : Bool
  processor : Bool
  webSocket : Option WSState
  deriving Repr, DecidableEq

/-- Outcome of `navigator.mediaDevices.getUserMedia`: a stream with its
tracks, a `NotAllowedError`, or any other exception. -/
inductive MediaResult where
  | granted (tracks : List ℕ)
  | notAllowed
  | otherError
  deriving Repr, DecidableEq

/-- Function `cleanupStreamingResources()`: cancels the animation frame if one is
scheduled, disconnects and nulls the processor if present (and an audio
context exists), stops every track of the local stream and nulls it, then
resets `isStreaming`, `inputLevel` and `outputLevel`. -/
def cleanupStreamingResources (s : SessionState) : SessionState × List Effect :=
  let r1 : SessionState × List Effect :=
    if s.animationFrame then
      ({ s with animationFrame := false }, [Effect.cancelAnimationFrame])
    else (s, [])
  let r2 : SessionState × List Effect :=
    if r1.1.processor && r1.1.audioContext then
      ({ r1.1 with processor := false }, [Effect.disconnectProcessor])
    else (r1.1, [])
  let r3 : SessionState × List Effect :=
    match r2.1.localStream with
    | some tracks =>
        ({ r2.1 with localStream := none }, tracks.map Effect.stopTrack)
    | none => (r2.1, [])
  ({ r3.1 with isStreaming := false, inputLevel := 0, outputLevel := 0 },
   r1.2 ++ r2.2 ++ r3.2)

/-- Function `toggleStreaming()`: when already streaming, runs
`cleanupStreamingResources` and returns.  Otherwise the result of the
`getUserMedia` request decides: on success, store the stream, publish
`micPermission = true`, create the audio context if missing, connect the
stream to a (new) input analyzer, create the output analyzer if missing,
set `isStreaming = true`, start the metering loop and toast; on
`NotAllowedError`, publish `micPermission = false`, toast destructively
and clean up; on any other error, toast destructively and clean up. -/
def toggleStreaming (s : SessionState) (media : MediaResult) :
    SessionState × List Effect :=
  if s.isStreaming then
    cleanupStreamingResources s
  else
    match media with
    | .granted tracks =>
        let s1 : SessionState :=
          { s with localStream := some tracks, micPermission := some true }
        let s2 : SessionState := { s1 with audioContext := true }
        let s3 : SessionState := { s2 with inputAnalyzer := true }
        let s4 : SessionState :=
          if !s3.outputAnalyzer && s3.audioContext then
            { s3 with outputAnalyzer := true }
          else s3
        let s5 : SessionState := { s4 with isStreaming := true }
        let s6 : SessionState := { s5 with animationFrame := true }
        (s6, [Effect.toast "Streaming started" Severity.default])
    | .notAllowed =>
        let s1 : SessionState := { s with micPermission := some false }
        let r2 := cleanupStreamingResources s1
        (r2.1, Effect.toast "Permission denied" Severity.destructive :: r2.2)
    | .otherError =>
        let r2 := cleanupStreamingResources s
        (r2.1, Effect.toast "Streaming error" Severity.destructive :: r2.2)

/-- The effect hook on `isStreaming`: when streaming with an audio
context, a local stream and a WebSocket service present, creates the
script processor and stores it in the ref. -/
def setupAudioProcessor (s : SessionState) : SessionState :=
  if s.isStreaming && s.audioContext && s.localStream.isSome
      && s.webSocket.isSome then
    { s with processor := true }
  else s

/-- The `webSocketService.onMessage` handler: with an audio context
present, `decodeAudioData` is attempted on the payload; on success the
decoded buffer is scheduled for immediate playback, routed through the
output analyzer when one exists; on failure the error is logged and
nothing else happens.  The decoder belongs to the host audio context and
is passed as a parameter. -/
def handleServerAudio (decodeAudioData : List ℕ → Option (List ℚ))
    (s : SessionState) (payload : List ℕ) : SessionState × List Effect :=
  if s.audioContext then
    match decodeAudioData payload with
    | some buffer => (s, [Effect.play buffer s.outputAnalyzer])
    | none => (s, [Effect.logError "Error decoding audio data"])
  else (s, [])

/-- Whether an effect is a toast of the destructive variant. -/
def Effect.isDestructiveToast : Effect → Bool
  | .toast _ Severity.destructive => true
  | _ => false

/-- Number of destructive toast notifications in an effect list. -/
def destructiveToastCount (effects : List Effect) : ℕ :=
  (effects.filter Effect.isDestructiveToast).length

/-- An idle session: nothing streaming, no resources held beyond the
audio context and a connected WebSocket service. -/
def idleSession : SessionState :=
  { isStreaming := false, isConnected := true, micPermission := none,
    inputLevel := 0, outputLevel := 0, localStream := none,
    audioContext := true, inputAnalyzer := false, outputAnalyzer := false,
    animationFrame := false, processor := false,
    webSocket := some wsConnectedExample }

/-- A streaming session holding every resource. -/
def streamingSession : SessionState :=
  { isStreaming := true, isConnected := true, micPermission := some true,
    inputLevel := 1/4, outputLevel := 1/8, localStream := some [7],
    audioContext := true, inputAnalyzer := true, outputAnalyzer := true,
    animationFrame := true, processor := true,
    webSocket := some wsConnectedExample }

end AudioStream

namespace AudioStream

/-! ## Transport lemmas -/

theorem closeCycle_attempts (s : WSState) :
    (closeCycle s).reconnectAttempts =
      if s.reconnectAttempts < maxReconnectAttempts then
        s.reconnectAttempts + 1
      else s.reconnectAttempts := by
  unfold closeCycle onCloseEvent attemptReconnect connect
  split <;> simp_all

theorem closeCycle_url (s : WSState) : (closeCycle s).url = s.url := by
  unfold closeCycle onCloseEvent attemptReconnect connect
  split <;> simp_all

theorem stateAfterCloses_url (s : WSState) (k : Nat) :
    (stateAfterCloses s k).url = s.url := by
  induction k with
  | zero => rfl
  | succ k ih => rw [stateAfterCloses, closeCycle_url, ih]

theorem stateAfterCloses_attempts (s : WSState) (h : s.reconnectAttempts = 0)
    (k : Nat) :
    (stateAfterCloses s k).reconnectAttempts = min k maxReconnectAttempts := by
  induction k with
  | zero => simpa [stateAfterCloses] using h
  | succ k ih =>
    rw [stateAfterCloses, closeCycle_attempts, ih]
    unfold maxReconnectAttempts
    split <;> omega

/-- Claim C1: in a run of consecutive unexpected closes with no intervening
successful reconnect, the delay scheduled before retry `k` (counted from 0)
is `min(1000 * 2^k, 10000)` while `k < 5` and nothing is scheduled from the
6th close on; concretely the scheduled delays are exactly
1000, 2000, 4000, 8000, 10000 ms; every retry calls `connect` with the
unchanged `url`. -/
theorem reconnect_delay_sequence (s : WSState)
    (h : s.reconnectAttempts = 0) :
    (∀ k, delayAtClose s k =
        if k < maxReconnectAttempts then some (min (1000 * 2 ^ k) 10000)
        else none)
    ∧ [delayAtClose s 0, delayAtClose s 1, delayAtClose s 2,
       delayAtClose s 3, delayAtClose s 4, delayAtClose s 5] =
      [some 1000, some 2000, some 4000, some 8000, some 10000, none]
    ∧ (∀ k, (stateAfterCloses s k).url = s.url) := by
  have hd : ∀ k, delayAtClose s k =
      if k < maxReconnectAttempts then some (min (1000 * 2 ^ k) 10000)
      else none := by
    intro k
    unfold delayAtClose onCloseEvent attemptReconnect
    rcases Nat.lt_or_ge k maxReconnectAttempts with hk | hk
    · have ha : (stateAfterCloses s k).reconnectAttempts = k := by
        rw [stateAfterCloses_attempts s h k, Nat.min_eq_left (Nat.le_of_lt hk)]
      simp [ha, hk]
    · have ha : (stateAfterCloses s k).reconnectAttempts = maxReconnectAttempts := by
        rw [stateAfterCloses_attempts s h k, Nat.min_eq_right hk]
      simp [ha, Nat.not_lt_of_ge hk, Nat.lt_irrefl]
  refine ⟨hd, ?_, fun k => stateAfterCloses_url s k⟩
  simp only [hd]
  norm_num [maxReconnectAttempts]

/-- Witness for C1 at a concrete initial state. -/
theorem reconnect_delay_sequence_witness :
    (⟨true, true, 0, none, "ws://localhost:8000/ws"⟩ : WSState).reconnectAttempts = 0
    ∧ ((∀ k, delayAtClose ⟨true, true, 0, none, "ws://localhost:8000/ws"⟩ k =
          if k < maxReconnectAttempts then some (min (1000 * 2 ^ k) 10000)
          else none)
      ∧ [delayAtClose ⟨true, true, 0, none, "ws://localhost:8000/ws"⟩ 0,
         delayAtClose ⟨true, true, 0, none, "ws://localhost:8000/ws"⟩ 1,
         delayAtClose ⟨true, true, 0, none, "ws://localhost:8000/ws"⟩ 2,
         delayAtClose ⟨true, true, 0, none, "ws://localhost:8000/ws"⟩ 3,
         delayAtClose ⟨true, true, 0, none, "ws://localhost:8000/ws"⟩ 4,
         delayAtClose ⟨true, true, 0, none, "ws://localhost:8000/ws"⟩ 5] =
        [some 1000, some 2000, some 4000, some 8000, some 10000, none]
      ∧ (∀ k, (stateAfterCloses ⟨true, true, 0, none, "ws://localhost:8000/ws"⟩ k).url =
          (⟨true, true, 0, none, "ws://localhost:8000/ws"⟩ : WSState).url)) :=
  ⟨rfl, reconnect_delay_sequence _ rfl⟩

/-- Claim C2 is refuted by the code: after an explicit `disconnect()` from
a connected state, `socket.close()` is invoked (second component `true`),
and when the resulting close event fires, the still-attached `onclose`
handler calls `attemptReconnect` unconditionally, scheduling a 1000 ms
reconnection retry — so the close caused by an explicit disconnect does
make the reconnection algorithm schedule a retry. -/
theorem disconnect_close_schedules_retry :
    (disconnect wsConnectedExample).2 = true
    ∧ (onCloseEvent (disconnect wsConnectedExample).1).2 = some 1000
    ∧ (onCloseEvent (disconnect wsConnectedExample).1).1.reconnectTimeout =
        some 1000 :=
  ⟨rfl, rfl, rfl⟩

/-- Claim C5: for every block, `sendAudioData` invoked while the service is
not connected returns the state unchanged and puts nothing on the wire —
no delivery, no mutation, nothing queued for a later reconnect. -/
theorem send_not_connected_noop (s : WSState) (audioData : List ℚ)
    (h : s.isConnected = false) :
    sendAudioData s audioData = (s, none) := by
  unfold sendAudioData
  simp [h]

/-- Witness for C5 at a concrete disconnected state and block. -/
theorem send_not_connected_noop_witness :
    wsDisconnectedExample.isConnected = false
    ∧ sendAudioData wsDisconnectedExample [1/2, -1] =
        (wsDisconnectedExample, none) :=
  ⟨rfl, send_not_connected_noop _ _ rfl⟩

/-- Claim C6: the `onopen` handler of every connect (reconnects included)
resets the reconnection attempt counter to 0, so a subsequent unexpected
close schedules its first retry after 1000 ms again. -/
theorem open_resets_attempts (s : WSState) :
    (onOpenEvent s).reconnectAttempts = 0
    ∧ (onCloseEvent (onOpenEvent s)).2 = some 1000 :=
  ⟨rfl, rfl⟩

/-- Claim C3: `getAudioLevel` is a pure function of the frequency bins; on
every nonempty bin array it returns the arithmetic mean of the bins
divided by 255, hence a constant array of byte value V yields V/255, an
all-zero array yields 0 and an all-255 array yields 1. -/
theorem getAudioLevel_mean (bins : List ℕ) (h : bins ≠ []) :
    getAudioLevel bins = ((bins.sum : ℚ) / bins.length) / 255
    ∧ (∀ V : ℕ, (∀ b ∈ bins, b = V) → getAudioLevel bins = V / 255)
    ∧ ((∀ b ∈ bins, b = 0) → getAudioLevel bins = 0)
    ∧ ((∀ b ∈ bins, b = 255) → getAudioLevel bins = 1) := by
  have hl : (bins.length : ℚ) ≠ 0 := by
    have h0 : bins.length ≠ 0 := by
      simpa [List.length_eq_zero] using h
    exact_mod_cast h0
  have hmean : getAudioLevel bins = ((bins.sum : ℚ) / bins.length) / 255 := by
    unfold getAudioLevel
    rw [div_div]
  have hconst : ∀ V : ℕ, (∀ b ∈ bins, b = V) →
      getAudioLevel bins = V / 255 := by
    intro V hV
    have hsum : bins.sum = bins.length * V := by
      rw [List.sum_eq_card_nsmul bins V hV, smul_eq_mul]
    rw [hmean, hsum]
    push_cast
    field_simp
  refine ⟨hmean, hconst, ?_, ?_⟩
  · intro h0
    rw [hconst 0 h0]
    norm_num
  · intro h255
    rw [hconst 255 h255]
    norm_num

/-! ## PCM16 encoding lemmas -/

theorem clampSample_mem (s : ℚ) : -1 ≤ clampSample s ∧ clampSample s ≤ 1 := by
  unfold clampSample
  exact ⟨le_max_left _ _, max_le (by norm_num) (min_le_left _ _)⟩

theorem floatTo16_range (s : ℚ) :
    -32767 ≤ floatTo16 s ∧ floatTo16 s ≤ 32767 := by
  obtain ⟨h1, h2⟩ := clampSample_mem s
  unfold floatTo16
  constructor
  · rw [Int.le_floor]
    push_cast
    nlinarith
  · have hle : clampSample s * 32767 ≤ ((32767 : ℤ) : ℚ) := by
      push_cast
      nlinarith
    calc ⌊clampSample s * 32767⌋ ≤ ⌊((32767 : ℤ) : ℚ)⌋ := Int.floor_mono hle
      _ = 32767 := Int.floor_intCast _

theorem int16ToBytesLE_length (v : ℤ) : (int16ToBytesLE v).length = 2 := rfl

theorem encodePCM16_cons (x : ℚ) (xs : List ℚ) :
    encodePCM16 (x :: xs) = int16ToBytesLE (floatTo16 x) ++ encodePCM16 xs := by
  unfold encodePCM16
  rw [List.map_cons, List.flatMap_cons]

theorem encodePCM16_length (xs : List ℚ) :
    (encodePCM16 xs).length = 2 * xs.length := by
  induction xs with
  | nil => rfl
  | cons x xs ih =>
    rw [encodePCM16_cons, List.length_append, int16ToBytesLE_length, ih,
      List.length_cons]
    ring

theorem decodeSampleLE_two (v : ℤ) (h1 : -32768 ≤ v) (h2 : v ≤ 32767)
    (rest : List ℕ) :
    decodeSampleLE (int16ToBytesLE v ++ rest) 0 = v := by
  unfold decodeSampleLE int16ToBytesLE
  simp only [List.cons_append, List.getD_cons_zero, Nat.mul_zero,
    Nat.zero_add, List.getD_cons_succ]
  split <;> omega

theorem decodeSampleLE_cons_succ (b0 b1 : ℕ) (rest : List ℕ) (i : ℕ) :
    decodeSampleLE (b0 :: b1 :: rest) (i + 1) = decodeSampleLE rest i := by
  unfold decodeSampleLE
  have e1 : 2 * (i + 1) = (2 * i + 1) + 1 := by ring
  rw [e1]
  simp only [List.getD_cons_succ]

theorem decode_encodePCM16 (xs : List ℚ) (i : ℕ) (hi : i < xs.length) :
    decodeSampleLE (encodePCM16 xs) i = floatTo16 (xs.getD i 0) := by
  induction xs generalizing i with
  | nil => simp at hi
  | cons x xs ih =>
    cases i with
    | zero =>
      rw [encodePCM16_cons, List.getD_cons_zero]
      obtain ⟨hlo, hhi⟩ := floatTo16_range x
      exact decodeSampleLE_two (floatTo16 x) (by omega) hhi _
    | succ i =>
      have hx : int16ToBytesLE (floatTo16 x) ++ encodePCM16 xs =
          ((floatTo16 x % 65536).toNat % 256) ::
            ((floatTo16 x % 65536).toNat / 256) :: encodePCM16 xs := rfl
      rw [encodePCM16_cons, hx, decodeSampleLE_cons_succ, List.getD_cons_succ]
      exact ih i (by simpa using Nat.lt_of_succ_lt_succ hi)

/-- Claim C4: while connected, each captured Float32 block is sent as
exactly one message of raw 16-bit signed little-endian PCM with no
envelope, sequence number or length prefix: the payload of an N-sample
block has 2*N bytes, its i-th 16-bit sample decodes to
`floor(clamp(s_i, -1, 1) * 32767)`, and that value always lies within the
signed 16-bit range. -/
theorem send_pcm16_encoding (s : WSState) (block : List ℚ)
    (hs : s.socketActive = true) (hc : s.isConnected = true) :
    sendAudioData s block = (s, some (encodePCM16 block))
    ∧ (encodePCM16 block).length = 2 * block.length
    ∧ ∀ i, i < block.length →
        decodeSampleLE (encodePCM16 block) i =
            ⌊clampSample (block.getD i 0) * 32767⌋
        ∧ -32768 ≤ decodeSampleLE (encodePCM16 block) i
        ∧ decodeSampleLE (encodePCM16 block) i ≤ 32767 := by
  refine ⟨?_, encodePCM16_length block, ?_⟩
  · unfold sendAudioData
    rw [hs, hc]
    rfl
  · intro i hi
    have hd := decode_encodePCM16 block i hi
    obtain ⟨hlo, hhi⟩ := floatTo16_range (block.getD i 0)
    have he : decodeSampleLE (encodePCM16 block) i =
        ⌊clampSample (block.getD i 0) * 32767⌋ := hd
    exact ⟨he, by rw [hd]; omega, by rw [hd]; exact hhi⟩

/-- Witness for C4 at a concrete connected state and block. -/
theorem send_pcm16_encoding_witness :
    wsConnectedExample.socketActive = true
    ∧ wsConnectedExample.isConnected = true
    ∧ (sendAudioData wsConnectedExample [1/2, -2, 1] =
          (wsConnectedExample, some (encodePCM16 [1/2, -2, 1]))
      ∧ (encodePCM16 [1/2, -2, 1]).length = 2 * ([1/2, -2, 1] : List ℚ).length
      ∧ ∀ i, i < ([1/2, -2, 1] : List ℚ).length →
          decodeSampleLE (encodePCM16 [1/2, -2, 1]) i =
              ⌊clampSample (([1/2, -2, 1] : List ℚ).getD i 0) * 32767⌋
          ∧ -32768 ≤ decodeSampleLE (encodePCM16 [1/2, -2, 1]) i
          ∧ decodeSampleLE (encodePCM16 [1/2, -2, 1]) i ≤ 32767) :=
  ⟨rfl, rfl, send_pcm16_encoding wsConnectedExample [1/2, -2, 1] rfl rfl⟩

/-- Witness for C3 at a concrete constant bin array. -/
theorem getAudioLevel_mean_witness :
    ([51, 51, 51, 51] : List ℕ) ≠ []
    ∧ (getAudioLevel [51, 51, 51, 51] =
          (((51 + 51 + 51 + 51 : ℕ) : ℚ) / (4 : ℕ)) / 255
      ∧ (∀ V : ℕ, (∀ b ∈ ([51, 51, 51, 51] : List ℕ), b = V) →
          getAudioLevel [51, 51, 51, 51] = V / 255)
      ∧ ((∀ b ∈ ([51, 51, 51, 51] : List ℕ), b = 0) →
          getAudioLevel [51, 51, 51, 51] = 0)
      ∧ ((∀ b ∈ ([51, 51, 51, 51] : List ℕ), b = 255) →
          getAudioLevel [51, 51, 51, 51] = 1)) := by
  refine ⟨by decide, ?_⟩
  have := getAudioLevel_mean [51, 51, 51, 51] (by decide)
  simpa using this

/-! ## Session controller theorems -/

theorem toggle_stop (s : SessionState) (m : MediaResult)
    (h : s.isStreaming = true) :
    toggleStreaming s m = cleanupStreamingResources s := by
  unfold toggleStreaming
  rw [h]
  rfl

theorem cleanupStreamingResources_eq (s : SessionState) :
    cleanupStreamingResources s =
      ({ s with
          isStreaming := false, inputLevel := 0, outputLevel := 0,
          animationFrame := false,
          processor := s.processor && !s.audioContext,
          localStream := none },
       (if s.animationFrame then [Effect.cancelAnimationFrame] else [])
         ++ (if s.processor && s.audioContext then
              [Effect.disconnectProcessor] else [])
         ++ (match s.localStream with
             | some tracks => tracks.map Effect.stopTrack
             | none => [])) := by
  obtain ⟨st, ic, mp, il, ol, ls, ac, ia, oa, af, pr, ws⟩ := s
  cases af <;> cases pr <;> cases ac <;> cases ls <;>
    simp [cleanupStreamingResources]

theorem cleanup_fields (s : SessionState) :
    (cleanupStreamingResources s).1.isStreaming = false
    ∧ (cleanupStreamingResources s).1.inputLevel = 0
    ∧ (cleanupStreamingResources s).1.outputLevel = 0
    ∧ (cleanupStreamingResources s).1.animationFrame = false
    ∧ (cleanupStreamingResources s).1.localStream = none
    ∧ (cleanupStreamingResources s).1.webSocket = s.webSocket
    ∧ (cleanupStreamingResources s).1.isConnected = s.isConnected
    ∧ (cleanupStreamingResources s).1.audioContext = s.audioContext
    ∧ (cleanupStreamingResources s).1.micPermission = s.micPermission
    ∧ (cleanupStreamingResources s).1.inputAnalyzer = s.inputAnalyzer
    ∧ (cleanupStreamingResources s).1.outputAnalyzer = s.outputAnalyzer := by
  rw [cleanupStreamingResources_eq]
  simp

theorem cleanup_stops_tracks (s : SessionState) (tracks : List ℕ)
    (h : s.localStream = some tracks) :
    ∀ t ∈ tracks, Effect.stopTrack t ∈ (cleanupStreamingResources s).2 := by
  intro t ht
  rw [cleanupStreamingResources_eq]
  simp only [h, List.mem_append]
  exact Or.inr (List.mem_map_of_mem _ ht)

theorem cleanup_effects_shape (s : SessionState) :
    ∀ e ∈ (cleanupStreamingResources s).2,
      e = Effect.cancelAnimationFrame ∨ e = Effect.disconnectProcessor
      ∨ ∃ t, e = Effect.stopTrack t := by
  intro e he
  rw [cleanupStreamingResources_eq] at he
  simp only [List.mem_append] at he
  rcases he with (h | h) | h
  · split at h <;> simp_all
  · split at h <;> simp_all
  · revert h
    cases hls : s.localStream with
    | none =>
        intro h
        simp at h
    | some tracks =>
        intro h
        simp only [List.mem_map] at h
        obtain ⟨t, _, rfl⟩ := h
        exact Or.inr (Or.inr ⟨t, rfl⟩)

theorem toggle_granted_fields (s : SessionState) (tracks : List ℕ)
    (h1 : s.isStreaming = false) :
    (toggleStreaming s (.granted tracks)).1.isStreaming = true
    ∧ (toggleStreaming s (.granted tracks)).1.localStream = some tracks
    ∧ (toggleStreaming s (.granted tracks)).1.animationFrame = true
    ∧ (toggleStreaming s (.granted tracks)).1.audioContext = true
    ∧ (toggleStreaming s (.granted tracks)).1.micPermission = some true
    ∧ (toggleStreaming s (.granted tracks)).1.webSocket = s.webSocket := by
  simp only [toggleStreaming, h1]
  split_ifs <;> simp_all

theorem setupAudioProcessor_fields (s : SessionState) :
    (setupAudioProcessor s).isStreaming = s.isStreaming
    ∧ (setupAudioProcessor s).localStream = s.localStream
    ∧ (setupAudioProcessor s).animationFrame = s.animationFrame
    ∧ (setupAudioProcessor s).audioContext = s.audioContext
    ∧ (setupAudioProcessor s).webSocket = s.webSocket := by
  unfold setupAudioProcessor
  split <;> simp

/-- Claim C7: when device acquisition fails with `NotAllowedError`
(permission denied) while not already streaming, `toggleStreaming`
settles with `micPermission = false`, `isStreaming = false`, exactly one
destructive notification, and no resource held from the attempt: no
stream, no metering frame, no processor (a clean return to Idle). -/
theorem permission_denied_outcome (s : SessionState)
    (h1 : s.isStreaming = false) (h2 : s.processor = false) :
    (toggleStreaming s .notAllowed).1.micPermission = some false
    ∧ (toggleStreaming s .notAllowed).1.isStreaming = false
    ∧ destructiveToastCount (toggleStreaming s .notAllowed).2 = 1
    ∧ (toggleStreaming s .notAllowed).1.localStream = none
    ∧ (toggleStreaming s .notAllowed).1.animationFrame = false
    ∧ (toggleStreaming s .notAllowed).1.processor = false := by
  simp only [toggleStreaming, cleanupStreamingResources, h1, h2,
    destructiveToastCount]
  split_ifs <;> cases hs : s.localStream <;>
    simp_all [Effect.isDestructiveToast]

/-- Witness for C7 at the concrete idle session. -/
theorem permission_denied_outcome_witness :
    idleSession.isStreaming = false
    ∧ idleSession.processor = false
    ∧ ((toggleStreaming idleSession .notAllowed).1.micPermission = some false
      ∧ (toggleStreaming idleSession .notAllowed).1.isStreaming = false
      ∧ destructiveToastCount (toggleStreaming idleSession .notAllowed).2 = 1
      ∧ (toggleStreaming idleSession .notAllowed).1.localStream = none
      ∧ (toggleStreaming idleSession .notAllowed).1.animationFrame = false
      ∧ (toggleStreaming idleSession .notAllowed).1.processor = false) :=
  ⟨rfl, rfl, permission_denied_outcome idleSession rfl rfl⟩

/-- Claim C8: a payload whose decode fails leaves the whole session state
unchanged (in particular `isStreaming` and `isConnected`), tears down
nothing, and only logs the error; a subsequent well-formed payload still
decodes and is scheduled for playback. -/
theorem decode_failure_isolated (decodeAudioData : List ℕ → Option (List ℚ))
    (s : SessionState) (p1 p2 : List ℕ) (buffer : List ℚ)
    (hctx : s.audioContext = true)
    (h1 : decodeAudioData p1 = none)
    (h2 : decodeAudioData p2 = some buffer) :
    handleServerAudio decodeAudioData s p1 =
      (s, [Effect.logError "Error decoding audio data"])
    ∧ handleServerAudio decodeAudioData
        (handleServerAudio decodeAudioData s p1).1 p2 =
      (s, [Effect.play buffer s.outputAnalyzer]) := by
  constructor <;> simp [handleServerAudio, hctx, h1, h2]

/-- Witness for C8 with a concrete decoder and payloads. -/
theorem decode_failure_isolated_witness :
    idleSession.audioContext = true
    ∧ (fun p : List ℕ => if p = [1] then some [(1 : ℚ)] else none) [0] = none
    ∧ (fun p : List ℕ => if p = [1] then some [(1 : ℚ)] else none) [1] =
        some [(1 : ℚ)]
    ∧ (handleServerAudio
          (fun p : List ℕ => if p = [1] then some [(1 : ℚ)] else none)
          idleSession [0] =
        (idleSession, [Effect.logError "Error decoding audio data"])
      ∧ handleServerAudio
          (fun p : List ℕ => if p = [1] then some [(1 : ℚ)] else none)
          (handleServerAudio
            (fun p : List ℕ => if p = [1] then some [(1 : ℚ)] else none)
            idleSession [0]).1 [1] =
        (idleSession, [Effect.play [(1 : ℚ)] idleSession.outputAnalyzer])) :=
  ⟨rfl, by simp, by simp,
    decode_failure_isolated _ idleSession [0] [1] [(1 : ℚ)] rfl
      (by simp) (by simp)⟩

/-- Claim C9: starting from Idle, `toggleStreaming` twice in immediate
succession (device granted, then stop) ends with both levels 0, the
metering loop stopped, the stream reference released, and a stop issued
for every track the first call acquired — no leaked device handle. -/
theorem toggle_twice_clean (s : SessionState) (tracks : List ℕ)
    (m : MediaResult) (h1 : s.isStreaming = false) :
    (toggleStreaming (setupAudioProcessor
        (toggleStreaming s (.granted tracks)).1) m).1.inputLevel = 0
    ∧ (toggleStreaming (setupAudioProcessor
        (toggleStreaming s (.granted tracks)).1) m).1.outputLevel = 0
    ∧ (toggleStreaming (setupAudioProcessor
        (toggleStreaming s (.granted tracks)).1) m).1.animationFrame = false
    ∧ (toggleStreaming (setupAudioProcessor
        (toggleStreaming s (.granted tracks)).1) m).1.localStream = none
    ∧ (∀ t ∈ tracks, Effect.stopTrack t ∈
        (toggleStreaming (setupAudioProcessor
          (toggleStreaming s (.granted tracks)).1) m).2)
    ∧ (toggleStreaming (setupAudioProcessor
        (toggleStreaming s (.granted tracks)).1) m).1.isStreaming = false := by
  obtain ⟨g1, g2, g3, g4, g5, g6⟩ := toggle_granted_fields s tracks h1
  obtain ⟨p1, p2, p3, p4, p5⟩ :=
    setupAudioProcessor_fields (toggleStreaming s (.granted tracks)).1
  have hs1 : (setupAudioProcessor
      (toggleStreaming s (.granted tracks)).1).isStreaming = true := by
    rw [p1, g1]
  have hls : (setupAudioProcessor
      (toggleStreaming s (.granted tracks)).1).localStream = some tracks := by
    rw [p2, g2]
  rw [toggle_stop _ m hs1]
  obtain ⟨c1, c2, c3, c4, c5, _⟩ :=
    cleanup_fields (setupAudioProcessor (toggleStreaming s (.granted tracks)).1)
  exact ⟨c2, c3, c4, c5, cleanup_stops_tracks _ tracks hls, c1⟩

/-- Witness for C9 at the concrete idle session with two tracks. -/
theorem toggle_twice_clean_witness :
    idleSession.isStreaming = false
    ∧ ((toggleStreaming (setupAudioProcessor
          (toggleStreaming idleSession (.granted [7, 8])).1)
          .notAllowed).1.inputLevel = 0
      ∧ (toggleStreaming (setupAudioProcessor
          (toggleStreaming idleSession (.granted [7, 8])).1)
          .notAllowed).1.outputLevel = 0
      ∧ (toggleStreaming (setupAudioProcessor
          (toggleStreaming idleSession (.granted [7, 8])).1)
          .notAllowed).1.animationFrame = false
      ∧ (toggleStreaming (setupAudioProcessor
          (toggleStreaming idleSession (.granted [7, 8])).1)
          .notAllowed).1.localStream = none
      ∧ (∀ t ∈ [7, 8], Effect.stopTrack t ∈
          (toggleStreaming (setupAudioProcessor
            (toggleStreaming idleSession (.granted [7, 8])).1)
            .notAllowed).2)
      ∧ (toggleStreaming (setupAudioProcessor
          (toggleStreaming idleSession (.granted [7, 8])).1)
          .notAllowed).1.isStreaming = false) :=
  ⟨rfl, toggle_twice_clean idleSession [7, 8] .notAllowed rfl⟩

/-- Claim C10: stopping streaming (toggle while streaming) resets only the
capture-side and metering state — `isStreaming`, both levels, the
metering frame, the processor and the capture stream — while the
WebSocket service reference, the observable `isConnected` flag, the audio
context, the analyzers and `micPermission` are all unchanged, and no
effect issued by the stop touches the transport. -/
theorem stop_preserves_transport (s : SessionState) (m : MediaResult)
    (h : s.isStreaming = true) :
    (toggleStreaming s m).1.webSocket = s.webSocket
    ∧ (toggleStreaming s m).1.isConnected = s.isConnected
    ∧ (toggleStreaming s m).1.audioContext = s.audioContext
    ∧ (toggleStreaming s m).1.micPermission = s.micPermission
    ∧ (toggleStreaming s m).1.inputAnalyzer = s.inputAnalyzer
    ∧ (toggleStreaming s m).1.outputAnalyzer = s.outputAnalyzer
    ∧ (toggleStreaming s m).1.isStreaming = false
    ∧ (toggleStreaming s m).1.inputLevel = 0
    ∧ (toggleStreaming s m).1.outputLevel = 0
    ∧ (toggleStreaming s m).1.animationFrame = false
    ∧ (toggleStreaming s m).1.localStream = none
    ∧ ∀ e ∈ (toggleStreaming s m).2,
        e = Effect.cancelAnimationFrame ∨ e = Effect.disconnectProcessor
        ∨ ∃ t, e = Effect.stopTrack t := by
  rw [toggle_stop s m h]
  obtain ⟨c1, c2, c3, c4, c5, c6, c7, c8, c9, c10, c11⟩ := cleanup_fields s
  exact ⟨c6, c7, c8, c9, c10, c11, c1, c2, c3, c4, c5,
    cleanup_effects_shape s⟩

/-- Witness for C10 at the concrete streaming session. -/
theorem stop_preserves_transport_witness :
    streamingSession.isStreaming = true
    ∧ ((toggleStreaming streamingSession .notAllowed).1.webSocket =
          streamingSession.webSocket
      ∧ (toggleStreaming streamingSession .notAllowed).1.isConnected =
          streamingSession.isConnected
      ∧ (toggleStreaming streamingSession .notAllowed).1.audioContext =
          streamingSession.audioContext
      ∧ (toggleStreaming streamingSession .notAllowed).1.micPermission =
          streamingSession.micPermission
      ∧ (toggleStreaming streamingSession .notAllowed).1.inputAnalyzer =
          streamingSession.inputAnalyzer
      ∧ (toggleStreaming streamingSession .notAllowed).1.outputAnalyzer =
          streamingSession.outputAnalyzer
      ∧ (toggleStreaming streamingSession .notAllowed).1.isStreaming = false
      ∧ (toggleStreaming streamingSession .notAllowed).1.inputLevel = 0
      ∧ (toggleStreaming streamingSession .notAllowed).1.outputLevel = 0
      ∧ (toggleStreaming streamingSession .notAllowed).1.animationFrame = false
      ∧ (toggleStreaming streamingSession .notAllowed).1.localStream = none
      ∧ ∀ e ∈ (toggleStreaming streamingSession .notAllowed).2,
          e = Effect.cancelAnimationFrame ∨ e = Effect.disconnectProcessor
          ∨ ∃ t, e = Effect.stopTrack t) :=
  ⟨rfl, stop_preserves_transport streamingSession .notAllowed rfl⟩

end AudioStream
